import Mathlib

/-!
Shallow embedding of the `LiveKitAudioManager` class (voice-agents SDK).

The manager's mutable fields become a `ManagerState` record, JS `Map`s become
insertion-ordered association lists, and the platform surface the code talks to
(room track lookup, `MediaRecorder`/`AudioContext`/`AudioWorklet` availability,
attached elements, analyser frequency bins, `Date.now`) becomes an explicit
`Env` record.  Methods become pure functions `Env → args → ManagerState →
ManagerState × List AudioEvent`; a synchronous JS `throw` surfaces as an
`Except.error` component.  Float32 samples are modelled as rationals: every
operation the capture pipeline performs on them (clamp by `-1`/`1`, multiply by
`32767`, truncate to Int16) is exact in `Float64` for `Float32` inputs, so the
rational model computes the same values.
-/

/-- JS `Map.set`: overwrite the value in place when the key exists, else append
(`Map` iteration is insertion-ordered). -/
def mapSet {α : Type} (k : String) (v : α) : List (String × α) → List (String × α)
  | [] => [(k, v)]
  | (k', v') :: rest => if k' == k then (k, v) :: rest else (k', v') :: mapSet k v rest

/-- JS `Map.delete`. -/
def mapDelete {α : Type} (k : String) (m : List (String × α)) : List (String × α) :=
  m.filter (fun p => p.1 != k)

/-- JS `Map.has`. -/
def mapHas {α : Type} (k : String) (m : List (String × α)) : Bool :=
  m.any (fun p => p.1 == k)

/-- JS `Map.get` (first binding for the key). -/
def mapGet {α : Type} (k : String) (m : List (String × α)) : Option α :=
  (m.find? (fun p => p.1 == k)).map Prod.snd

/-- Number of bindings for a key (1 for a well-formed map that holds it). -/
def countKey {α : Type} (k : String) (m : List (String × α)) : Nat :=
  (m.filter (fun p => p.1 == k)).length

/-- JS `a || b` on an optional string: `undefined` and `""` are falsy. -/
def jsOrString (a : Option String) (d : String) : String :=
  match a with
  | some s => if s = "" then d else s
  | none => d

/-- JS `a || b` on an optional number: `undefined` and `0` are falsy. -/
def jsOrNat (a : Option Nat) (d : Nat) : Nat :=
  match a with
  | some n => if n = 0 then d else n
  | none => d

/-- JS `a || b` on two optional function values (functions are always truthy). -/
def jsOrOption {α : Type} (a b : Option α) : Option α :=
  match a with
  | some x => some x
  | none => b

/-- ASCII lowering of one character, as `String.prototype.toLowerCase` acts on
the identifiers this code compares. -/
def lowerChar (c : Char) : Char :=
  if c.toNat ≥ 65 ∧ c.toNat ≤ 90 then Char.ofNat (c.toNat + 32) else c

/-- Does `pat` occur as a contiguous substring of `l`? (`String.prototype.includes`.) -/
def hasSubstring (pat : List Char) : List Char → Bool
  | [] => pat.isEmpty
  | c :: rest => pat.isPrefixOf (c :: rest) || hasSubstring pat rest

/-- The role heuristic `(participant.identity || '').toLowerCase().includes('agent')`. -/
def identityIsAgent (identity : String) : Bool :=
  hasSubstring "agent".data (identity.data.map lowerChar)

/-- LiveKit `Track.Source` values the manager distinguishes. -/
inductive TrackSource
  | microphone
  | camera
  | screenShare
  | screenShareAudio
  | unknown
deriving DecidableEq, Repr

/-- The `#getTrackSourceString` mapping to human-readable strings. -/
def getTrackSourceString : TrackSource → String
  | .microphone => "microphone"
  | .camera => "camera"
  | .screenShare => "screen_share"
  | .screenShareAudio => "screen_share_audio"
  | .unknown => "unknown"

/-- Value of a capture session's `source` field (`'agent' | 'user'`). -/
inductive CaptureRole
  | agent
  | user
deriving DecidableEq, Repr

/-- The `source` capture option (`'agent' | 'user' | 'both'`). -/
inductive CaptureSource
  | agent
  | user
  | both
deriving DecidableEq, Repr

/-- The string comparison `source !== trackSource` identifies these values. -/
def roleToSource : CaptureRole → CaptureSource
  | .agent => .agent
  | .user => .user

/-- The `AudioCaptureFormat` union (`'opus-webm' | 'pcm-f32' | 'pcm-i16'`). -/
inductive AudioCaptureFormat
  | opusWebm
  | pcmF32
  | pcmI16
deriving DecidableEq, Repr

/-- A JS number argument: finite value or one of the non-finite values. -/
inductive JsNumber
  | finite (q : ℚ)
  | nan
  | posInf
  | negInf
deriving DecidableEq

/-- `Number.isFinite`. -/
def JsNumber.isFinite : JsNumber → Bool
  | .finite _ => true
  | _ => false

/-- Events the manager emits (`this.emit(...)`). -/
inductive AudioEvent
  | speaking
  | listening
  | volumeChanged (level : ℚ)
  | errorEvent (msg : String)
  | trackSubscribed (trackId : String)
  | trackUnsubscribed (trackId : String)
deriving DecidableEq, Repr

/-- An HTML audio element held in the `audioElements` set. -/
structure AudioElement where
  elemId : Nat
  volume : ℚ
  speaking : Bool
deriving DecidableEq

/-- One `TrackStatsData` record as written by `#recordTrackStats`. -/
structure TrackStatsData where
  trackId : String
  kind : String
  participant : String
  subscriptionTime : Nat
  source : String
  muted : Bool
  enabled : Bool
deriving DecidableEq, Repr

/-- Value stored in the `trackCaptureMap`. -/
structure CaptureInfo where
  participant : String
  source : CaptureRole
deriving DecidableEq, Repr

/-- The normalized options stored by `enableAudioCapture` (the delivery callback
is opaque; it is modelled by an identifying number). -/
structure StoredCaptureOptions where
  source : CaptureSource
  trackSourceFilter : String
  format : AudioCaptureFormat
  chunkSize : Nat
  bufferSize : Nat
  callback : Nat
deriving DecidableEq, Repr

/-- The caller-supplied `AudioCaptureOptions` object; absent fields are `none`. -/
structure AudioCaptureOptions where
  callback : Option Nat := none
  onData : Option Nat := none
  source : Option CaptureSource := none
  trackSourceFilter : Option String := none
  format : Option AudioCaptureFormat := none
  chunkSize : Option Nat := none
  bufferSize : Option Nat := none
deriving DecidableEq, Repr

/-- The mutable fields of a `LiveKitAudioManager` instance. -/
structure ManagerState where
  audioElements : List AudioElement := []
  trackStats : List (String × TrackStatsData) := []
  volume : ℚ := 1
  audioContext : Bool := false
  inputAnalyser : Bool := false
  audioCaptureEnabled : Bool := false
  audioCaptureOptions : Option StoredCaptureOptions := none
  recorders : List (String × Unit) := []
  processors : List (String × Unit) := []
  sourceNodes : List (String × Unit) := []
  clonedTracks : List (String × Nat) := []
  trackCaptureMap : List (String × CaptureInfo) := []
  workletReady : Bool := false
deriving DecidableEq

/-- The track argument of the subscription handlers: `sid`,
`mediaStreamTrack?.id`, `kind` and `source`. -/
structure TrackArg where
  sid : Option String
  mediaStreamTrackId : Option String
  kind : String
  source : TrackSource
deriving DecidableEq, Repr

/-- Publication metadata consumed by `#recordTrackStats`. -/
structure PublicationArg where
  source : TrackSource
  isMuted : Bool
  isEnabled : Bool
deriving DecidableEq, Repr

/-- The result of `#getTrackById`: a live track with its underlying
`mediaStreamTrack` (if any) and its source. -/
structure ResolvedTrack where
  mediaStreamTrack : Option Nat
  source : TrackSource
deriving DecidableEq, Repr

/-- The platform surface the manager interacts with: room lookup, constructor
availability and failure modes, analyser data, attached elements, clock. -/
structure Env where
  resolveTrack : String → Option ResolvedTrack
  mediaRecorderOk : Bool := true
  contextAvailable : Bool := true
  workletSupported : Bool := true
  workletModuleOk : Bool := true
  scriptProcessorOk : Bool := true
  micTrackAvailable : Bool := true
  analyserCreationOk : Bool := true
  inputBins : List Nat := []
  attachElement : String → Option Nat
  detachElements : String → List Nat
  now : Nat := 0

/-- The stream-id fallback `track.sid || track.mediaStreamTrack?.id || 'unknown'`. -/
def trackKey (t : TrackArg) : String :=
  jsOrString t.sid (jsOrString t.mediaStreamTrackId "unknown")

/-- The body of `setVolume`'s normalization: clamp finite input to `[0, 1]`,
collapse non-finite input to `DEFAULT_VOLUME = 0`. -/
def normalizeVolume : JsNumber → ℚ
  | .finite q => min 1 (max 0 q)
  | _ => 0

/-- `setVolume`: store the normalized level, apply it to every element in the
`audioElements` set, emit `volumeChanged`.  The JS body is wrapped in
`try/catch` that converts any internal failure into an `error` event; in this
pure model no step can fail, so the catch arm is unreachable. -/
def setVolume (st : ManagerState) (volume : JsNumber) : ManagerState × List AudioEvent :=
  let vol := normalizeVolume volume
  ({ st with
      volume := vol
      audioElements := st.audioElements.map (fun e => { e with volume := vol }) },
   [AudioEvent.volumeChanged vol])

/-- `getOutputVolume`. -/
def getOutputVolume (st : ManagerState) : ℚ :=
  st.volume

/-- Playback-state events a sink's element can fire. -/
inductive PlaybackEvent
  | play
  | pause
  | ended
deriving DecidableEq, Repr

/-- Initial value of the `isCurrentlySpeaking` closure flag in
`#setupAudioMonitoring`. -/
def monitorInit : Bool := false

/-- One listener dispatch of the `#setupAudioMonitoring` closure: new flag value
and the events emitted. -/
def monitorStep (speaking : Bool) : PlaybackEvent → Bool × List AudioEvent
  | .play => if speaking then (true, []) else (true, [AudioEvent.speaking])
  | .pause => (false, [AudioEvent.listening])
  | .ended => (false, [AudioEvent.listening])

/-- Truncation toward zero, the conversion ECMAScript `ToInt16` applies to the
(finite) number assigned into an `Int16Array` slot. -/
def truncQ (q : ℚ) : ℤ :=
  if 0 ≤ q then ⌊q⌋ else ⌈q⌉

/-- The wrap-around step of ECMAScript `ToInt16`: reduce modulo `2^16` into
`[-32768, 32767]`. -/
def toInt16 (z : ℤ) : ℤ :=
  if z % 65536 ≥ 32768 then z % 65536 - 65536 else z % 65536

/-- The clamp `Math.max(-1, Math.min(1, s))`. -/
def clampSample (q : ℚ) : ℚ :=
  max (-1) (min 1 q)

/-- `#float32ToInt16`: clamp each sample to `[-1, 1]`, scale by
`INT16_SCALE = 32767`, and store into an `Int16Array` (ECMAScript `ToInt16`:
truncation toward zero, then wrap).  For `Float32` inputs the `Float64` product
is exact, so rational arithmetic models it exactly. -/
def float32ToInt16 (buffer : List ℚ) : List ℤ :=
  buffer.map (fun s => toInt16 (truncQ (clampSample s * 32767)))

/-- Modelled from the spec for comparison only: the specified conversion
`round(clamp(s, -1, 1) * 32767)` with round-to-nearest. -/
def float32ToInt16Rounded (buffer : List ℚ) : List ℤ :=
  buffer.map (fun s => round (clampSample s * 32767))

/-- `#ensureAudioContext`: keep an existing context, else construct one when the
platform allows it (the 16 kHz / default-rate fallback chain both end in a
context; total failure ends in `null`). -/
def ensureAudioContext (env : Env) (st : ManagerState) : ManagerState :=
  if st.audioContext then st
  else { st with audioContext := env.contextAvailable }

/-- `#initializeInputAnalyser`: build the context, resolve the microphone
publication's media track, create and connect the analyser; any missing piece
or thrown step leaves `inputAnalyser` null. -/
def initializeInputAnalyser (env : Env) (st : ManagerState) : ManagerState :=
  if !(ensureAudioContext env st).audioContext then ensureAudioContext env st
  else if !env.micTrackAvailable then ensureAudioContext env st
  else if !env.analyserCreationOk then ensureAudioContext env st
  else { ensureAudioContext env st with inputAnalyser := true }

/-- Sum of the byte values in a frequency-bin array, as a rational. -/
def binSum (bins : List Nat) : ℚ :=
  bins.foldl (fun acc v => acc + (v : ℚ)) 0

/-- The lazy-initialization step at the top of `getInputVolume` (and of the
frequency-data getter): reuse the analyser or build it now. -/
def inputAnalyserAfter (env : Env) (st : ManagerState) : ManagerState :=
  if st.inputAnalyser then st else initializeInputAnalyser env st

/-- `getInputVolume`: lazily initialize the input analyser; return `0` without
one or on an empty bin array, else the clamped average `sum / (length * 255)`.
The try/catch body makes the JS method total; this model is total by
construction. -/
def getInputVolume (env : Env) (st : ManagerState) : ℚ × ManagerState :=
  if !(inputAnalyserAfter env st).inputAnalyser then (0, inputAnalyserAfter env st)
  else if env.inputBins.length = 0 then (0, inputAnalyserAfter env st)
  else
    (max 0 (min 1 (binSum env.inputBins / (env.inputBins.length * 255))),
     inputAnalyserAfter env st)

/-- The result record of `getTrackStats`. -/
structure TrackStatsResult where
  totalTracks : Nat
  activeTracks : Nat
  audioElements : Nat
  trackDetails : List (String × TrackStatsData)
deriving DecidableEq, Repr

/-- `getTrackStats`. -/
def getTrackStats (st : ManagerState) : TrackStatsResult :=
  { totalTracks := st.trackStats.length
    activeTracks := st.trackStats.length
    audioElements := st.audioElements.length
    trackDetails := st.trackStats }

/-- `#recordTrackStats`: upsert the stats record under the derived stream id. -/
def recordTrackStats (env : Env) (t : TrackArg) (pub : PublicationArg)
    (identity : Option String) (st : ManagerState) : ManagerState :=
  { st with
      trackStats := mapSet (trackKey t)
        { trackId := trackKey t
          kind := t.kind
          participant := jsOrString identity "unknown"
          subscriptionTime := env.now
          source := getTrackSourceString pub.source
          muted := pub.isMuted
          enabled := pub.isEnabled } st.trackStats }

/-- `#cleanupTrackMetadata`. -/
def cleanupTrackMetadata (t : TrackArg) (st : ManagerState) : ManagerState :=
  { st with trackStats := mapDelete (trackKey t) st.trackStats }

/-- `#setupEncodedCapture`: construct a `MediaRecorder` over the cloned stream,
start it, and register it; a throwing constructor is caught and surfaced as an
`error` event. -/
def setupEncodedCapture (env : Env) (trackId : String) (st : ManagerState) :
    ManagerState × List AudioEvent :=
  match st.audioCaptureOptions with
  | none => (st, [])
  | some _ =>
    if env.mediaRecorderOk then
      ({ st with recorders := mapSet trackId () st.recorders }, [])
    else
      (st, [AudioEvent.errorEvent "Failed to setup encoded audio capture"])

/-- `#setupScriptProcessorCapture`: on success register the source node, the
processor, and the silent gain terminal; a failure is only logged. -/
def setupScriptProcessorCapture (env : Env) (trackId : String) (st : ManagerState) :
    ManagerState :=
  if env.scriptProcessorOk then
    { st with
        sourceNodes := mapSet trackId () st.sourceNodes
        processors := mapSet (trackId ++ "_gain") () (mapSet trackId () st.processors) }
  else st

/-- `#setupAudioWorkletCapture`: register the worklet module once (the shared
`workletReady` promise), then wire source → worklet → silent gain → destination;
on failure reset `workletReady` and fall back to the script processor. -/
def setupAudioWorkletCapture (env : Env) (trackId : String) (st : ManagerState) :
    ManagerState :=
  if st.workletReady || env.workletModuleOk then
    { st with
        workletReady := true
        sourceNodes := mapSet trackId () st.sourceNodes
        processors := mapSet (trackId ++ "_gain") () (mapSet trackId () st.processors) }
  else
    setupScriptProcessorCapture env trackId { st with workletReady := false }

/-- `#setupPCMCapture`: require a context (else an `error` event), prefer the
worklet strategy, fall back to the script processor. -/
def setupPCMCapture (env : Env) (trackId : String) (st : ManagerState) :
    ManagerState × List AudioEvent :=
  match st.audioCaptureOptions with
  | none => (st, [])
  | some _ =>
    if !(ensureAudioContext env st).audioContext then
      (ensureAudioContext env st, [AudioEvent.errorEvent "Failed to setup PCM audio capture"])
    else if env.workletSupported then
      (setupAudioWorkletCapture env trackId (ensureAudioContext env st), [])
    else
      (setupScriptProcessorCapture env trackId (ensureAudioContext env st), [])

/-- The two registrations `#setupTrackCapture` performs past the dedupe guard:
store the capture-session metadata and the cloned stream's track. -/
def captureRegister (trackId participant : String) (source : CaptureRole) (mst : Nat)
    (st : ManagerState) : ManagerState :=
  { st with
      trackCaptureMap := mapSet trackId ⟨participant, source⟩ st.trackCaptureMap
      clonedTracks := mapSet trackId mst st.clonedTracks }

/-- `#setupTrackCapture`: resolve the live track, abort silently when it is
gone or when a capture session already exists (dedupe guard, logged only),
record the session, clone the stream, then take the encoded or PCM path. -/
def setupTrackCapture (env : Env) (trackId participant : String) (source : CaptureRole)
    (format : AudioCaptureFormat) (st : ManagerState) : ManagerState × List AudioEvent :=
  match st.audioCaptureOptions with
  | none => (st, [])
  | some _ =>
    match env.resolveTrack trackId with
    | none => (st, [])
    | some track =>
      match track.mediaStreamTrack with
      | none => (st, [])
      | some mst =>
        if mapHas trackId st.trackCaptureMap then (st, [])
        else if format = .opusWebm then
          setupEncodedCapture env trackId (captureRegister trackId participant source mst st)
        else
          setupPCMCapture env trackId (captureRegister trackId participant source mst st)

/-- The `isAgent ? 'agent' : 'user'` role derivation. -/
def roleOf (participant : String) : CaptureRole :=
  if identityIsAgent participant then .agent else .user

/-- `#setupAudioCaptureIfEnabled`: the per-subscription filter chain (armed?,
participant role matches `source`?, track source matches `trackSourceFilter`?)
in front of `#setupTrackCapture`. -/
def setupAudioCaptureIfEnabled (env : Env) (t : TrackArg) (identity : Option String)
    (st : ManagerState) : ManagerState × List AudioEvent :=
  if !(st.audioCaptureEnabled && st.audioCaptureOptions.isSome) then (st, [])
  else
    match st.audioCaptureOptions with
    | none => (st, [])
    | some opts =>
      if opts.source ≠ .both ∧ opts.source ≠ roleToSource (roleOf (jsOrString identity "")) then
        (st, [])
      else if opts.trackSourceFilter ≠ "all" ∧
          opts.trackSourceFilter ≠ getTrackSourceString t.source then
        (st, [])
      else
        setupTrackCapture env (trackKey t) (jsOrString identity "unknown")
          (roleOf (jsOrString identity "")) opts.format st

/-- One iteration of the `#setupExistingTrackCapture` loop over
`trackStats.entries()`. -/
def setupExistingStep (env : Env) (opts : StoredCaptureOptions)
    (acc : ManagerState × List AudioEvent) (entry : String × TrackStatsData) :
    ManagerState × List AudioEvent :=
  if opts.source ≠ .both ∧ opts.source ≠ roleToSource (roleOf entry.2.participant) then acc
  else if opts.trackSourceFilter ≠ "all" ∧ opts.trackSourceFilter ≠ entry.2.source then acc
  else
    ((setupTrackCapture env entry.1 entry.2.participant (roleOf entry.2.participant)
        opts.format acc.1).1,
     acc.2 ++ (setupTrackCapture env entry.1 entry.2.participant (roleOf entry.2.participant)
        opts.format acc.1).2)

/-- `#setupExistingTrackCapture`: arm capture for every already-registered
track passing the filters. -/
def setupExistingTrackCapture (env : Env) (st : ManagerState) :
    ManagerState × List AudioEvent :=
  match st.audioCaptureOptions with
  | none => (st, [])
  | some opts => st.trackStats.foldl (setupExistingStep env opts) (st, [])

/-- Option normalization in `enableAudioCapture`: each stored field is the JS
`||` of the given field and its default. -/
def normalizeCaptureOptions (options : AudioCaptureOptions) (cb : Nat) :
    StoredCaptureOptions :=
  { source := options.source.getD .agent
    trackSourceFilter := jsOrString options.trackSourceFilter "microphone"
    format := options.format.getD .opusWebm
    chunkSize := jsOrNat options.chunkSize 100
    bufferSize := jsOrNat options.bufferSize 2048
    callback := cb }

/-- State mutation of `enableAudioCapture` before arming existing tracks. -/
def armCapture (options : AudioCaptureOptions) (cb : Nat) (st : ManagerState) :
    ManagerState :=
  { st with
      audioCaptureEnabled := true
      audioCaptureOptions := some (normalizeCaptureOptions options cb) }

/-- `enableAudioCapture`: accept the delivery callback under `callback` or
`onData`; throw synchronously when both are absent (first component `.error`,
state untouched, nothing emitted); otherwise store the normalized options,
raise the armed flag, and arm capture for existing tracks. -/
def enableAudioCapture (env : Env) (options : AudioCaptureOptions) (st : ManagerState) :
    Except String Unit × ManagerState × List AudioEvent :=
  match jsOrOption options.callback options.onData with
  | none =>
    (.error "Audio capture requires either callback or onData option", st, [])
  | some cb =>
    (.ok (), setupExistingTrackCapture env (armCapture options cb st))

/-- `#cleanupAudioCapture`: stop recorders, disconnect processors and source
nodes, stop clones, clear every capture collection, close and drop the shared
context.  Each step is try/catch-ignored in JS, so the model always clears. -/
def cleanupAudioCapture (st : ManagerState) : ManagerState :=
  { st with
      workletReady := false
      recorders := []
      processors := []
      sourceNodes := []
      clonedTracks := []
      trackCaptureMap := []
      audioContext := false }

/-- `disableAudioCapture`. -/
def disableAudioCapture (st : ManagerState) : ManagerState :=
  { cleanupAudioCapture { st with audioCaptureEnabled := false } with
      audioCaptureOptions := none
      workletReady := false }

/-- `cleanup`: capture teardown, then detach every audio element (DOM errors
ignored) and clear the element set, then clear the track registry. -/
def cleanup (st : ManagerState) : ManagerState :=
  { cleanupAudioCapture st with audioElements := [], trackStats := [] }

/-- Element registration inside `#setupAudioElement`: new element at the
current volume, autoplay, monitoring mounted with the not-speaking flag. -/
def withNewElement (eid : Nat) (st : ManagerState) : ManagerState :=
  { st with
      audioElements := st.audioElements ++
        [{ elemId := eid, volume := st.volume, speaking := monitorInit }] }

/-- `#setupAudioElement`: attach the track (a `null` element is a silent
no-op), apply the current volume, mount monitoring, register the element, emit
`trackSubscribed`, attach to the DOM, then try capture setup. -/
def setupAudioElement (env : Env) (t : TrackArg) (identity : Option String)
    (st : ManagerState) : ManagerState × List AudioEvent :=
  match env.attachElement (trackKey t) with
  | none => (st, [])
  | some eid =>
    ((setupAudioCaptureIfEnabled env t identity (withNewElement eid st)).1,
     AudioEvent.trackSubscribed (trackKey t) ::
       (setupAudioCaptureIfEnabled env t identity (withNewElement eid st)).2)

/-- `handleTrackSubscribed`: for audio tracks, record stats, set up the
element, and (a second time, from the handler itself) try capture setup. -/
def handleTrackSubscribed (env : Env) (t : TrackArg) (pub : PublicationArg)
    (identity : Option String) (st : ManagerState) : ManagerState × List AudioEvent :=
  if t.kind ≠ "audio" then (st, [])
  else
    ((setupAudioCaptureIfEnabled env t identity
        (setupAudioElement env t identity (recordTrackStats env t pub identity st)).1).1,
     (setupAudioElement env t identity (recordTrackStats env t pub identity st)).2 ++
       (setupAudioCaptureIfEnabled env t identity
          (setupAudioElement env t identity (recordTrackStats env t pub identity st)).1).2)

/-- `#detachTrackElements`: drop every detached element from the set. -/
def detachTrackElements (detached : List Nat) (st : ManagerState) : ManagerState :=
  { st with audioElements := st.audioElements.filter (fun e => !(detached.contains e.elemId)) }

/-- `handleTrackUnsubscribed`: for audio tracks, delete the registry record,
detach the track's elements, and emit `trackUnsubscribed`. -/
def handleTrackUnsubscribed (env : Env) (t : TrackArg) (st : ManagerState) :
    ManagerState × List AudioEvent :=
  if t.kind ≠ "audio" then (st, [])
  else
    (detachTrackElements (env.detachElements (trackKey t)) (cleanupTrackMetadata t st),
     [AudioEvent.trackUnsubscribed (trackKey t)])

theorem countKey_eq_zero (k : String) {α : Type} (m : List (String × α))
    (h : mapHas k m = false) : countKey k m = 0 := by
  induction m with
  | nil => rfl
  | cons p rest ih =>
    simp only [mapHas, List.any_cons, Bool.or_eq_false_iff] at h
    simp only [countKey, List.filter_cons, h.1, List.length_nil]
    exact ih h.2

theorem countKey_mapSet_new (k : String) {α : Type} (v : α) (m : List (String × α))
    (h : mapHas k m = false) : countKey k (mapSet k v m) = 1 := by
  induction m with
  | nil => simp [mapSet, countKey]
  | cons p rest ih =>
    obtain ⟨k', v'⟩ := p
    simp only [mapHas, List.any_cons, Bool.or_eq_false_iff] at h
    have hne : (k' == k) = false := h.1
    simp only [mapSet, hne, Bool.false_eq_true, if_false, countKey, List.filter_cons]
    simp only [countKey] at ih
    simp [hne, ih h.2]

theorem mapHas_mapSet_self (k : String) {α : Type} (v : α) (m : List (String × α)) :
    mapHas k (mapSet k v m) = true := by
  induction m with
  | nil => simp [mapSet, mapHas]
  | cons p rest ih =>
    obtain ⟨k', v'⟩ := p
    by_cases h : (k' == k) = true
    · simp [mapSet, h, mapHas]
    · simp only [Bool.not_eq_true] at h
      simp [mapSet, h, mapHas, List.any_cons]
      simpa [mapHas] using ih

theorem mapHas_mapSet_ne (k k' : String) {α : Type} (v : α) (m : List (String × α))
    (h : k ≠ k') : mapHas k (mapSet k' v m) = mapHas k m := by
  induction m with
  | nil => simp [mapSet, mapHas, Ne.symm h]
  | cons p rest ih =>
    obtain ⟨k0, v0⟩ := p
    by_cases h0 : (k0 == k') = true
    · have hk0 : k0 = k' := by simpa using h0
      subst hk0
      simp [mapSet, mapHas, List.any_cons]
    · simp only [Bool.not_eq_true] at h0
      simp [mapSet, h0, mapHas, List.any_cons]
      simp only [mapHas] at ih
      rw [ih]

/-- Projection of the state fields the per-stream capture branches never touch. -/
def coreView (st : ManagerState) :
    List (String × CaptureInfo) × List (String × Nat) × Option StoredCaptureOptions ×
      Bool × List (String × TrackStatsData) × List AudioElement × ℚ :=
  (st.trackCaptureMap, st.clonedTracks, st.audioCaptureOptions, st.audioCaptureEnabled,
   st.trackStats, st.audioElements, st.volume)

theorem coreView_eq_iff (s1 s2 : ManagerState) :
    coreView s1 = coreView s2 ↔
      (s1.trackCaptureMap = s2.trackCaptureMap ∧ s1.clonedTracks = s2.clonedTracks
       ∧ s1.audioCaptureOptions = s2.audioCaptureOptions
       ∧ s1.audioCaptureEnabled = s2.audioCaptureEnabled
       ∧ s1.trackStats = s2.trackStats ∧ s1.audioElements = s2.audioElements
       ∧ s1.volume = s2.volume) := by
  unfold coreView
  simp [Prod.ext_iff]

theorem coreView_ensureAudioContext (env : Env) (st : ManagerState) :
    coreView (ensureAudioContext env st) = coreView st := by
  unfold ensureAudioContext
  split <;> rfl

theorem coreView_scriptCapture (env : Env) (k : String) (st : ManagerState) :
    coreView (setupScriptProcessorCapture env k st) = coreView st := by
  unfold setupScriptProcessorCapture
  split <;> rfl

theorem coreView_workletCapture (env : Env) (k : String) (st : ManagerState) :
    coreView (setupAudioWorkletCapture env k st) = coreView st := by
  unfold setupAudioWorkletCapture
  split
  · rfl
  · rw [coreView_scriptCapture]
    rfl

theorem coreView_encodedCapture (env : Env) (k : String) (st : ManagerState) :
    coreView (setupEncodedCapture env k st).1 = coreView st := by
  unfold setupEncodedCapture
  split
  · rfl
  · split <;> rfl

theorem coreView_pcmCapture (env : Env) (k : String) (st : ManagerState) :
    coreView (setupPCMCapture env k st).1 = coreView st := by
  unfold setupPCMCapture
  split
  · rfl
  · split
    · exact coreView_ensureAudioContext env st
    · split
      · rw [coreView_workletCapture]
        exact coreView_ensureAudioContext env st
      · rw [coreView_scriptCapture]
        exact coreView_ensureAudioContext env st

/-- `#setupTrackCapture` either leaves the core state alone (an abort path) or
performs exactly the registration `captureRegister`. -/
theorem setupTrackCapture_coreCases (env : Env) (k p : String) (r : CaptureRole)
    (f : AudioCaptureFormat) (st : ManagerState) :
    coreView (setupTrackCapture env k p r f st).1 = coreView st
    ∨ ∃ mst, coreView (setupTrackCapture env k p r f st).1
        = coreView (captureRegister k p r mst st) := by
  unfold setupTrackCapture
  split
  · exact Or.inl rfl
  · split
    · exact Or.inl rfl
    · split
      · exact Or.inl rfl
      · split
        · exact Or.inl rfl
        · split
          · exact Or.inr ⟨_, coreView_encodedCapture env k _⟩
          · exact Or.inr ⟨_, coreView_pcmCapture env k _⟩

/-- The fields of the state `#setupTrackCapture` never modifies. -/
theorem setupTrackCapture_fields (env : Env) (k p : String) (r : CaptureRole)
    (f : AudioCaptureFormat) (st : ManagerState) :
    (setupTrackCapture env k p r f st).1.audioCaptureOptions = st.audioCaptureOptions
    ∧ (setupTrackCapture env k p r f st).1.audioCaptureEnabled = st.audioCaptureEnabled
    ∧ (setupTrackCapture env k p r f st).1.trackStats = st.trackStats
    ∧ (setupTrackCapture env k p r f st).1.audioElements = st.audioElements
    ∧ (setupTrackCapture env k p r f st).1.volume = st.volume := by
  rcases setupTrackCapture_coreCases env k p r f st with h | ⟨mst, h⟩ <;>
    rw [coreView_eq_iff] at h <;>
    obtain ⟨-, -, h3, h4, h5, h6, h7⟩ := h <;>
    exact ⟨h3, h4, h5, h6, h7⟩

/-- When a capture session for the id already exists, `#setupTrackCapture` is a
logged no-op: same state, nothing emitted, nothing created. -/
theorem setupTrackCapture_skip (env : Env) (k p : String) (r : CaptureRole)
    (f : AudioCaptureFormat) (st : ManagerState)
    (h : mapHas k st.trackCaptureMap = true) :
    setupTrackCapture env k p r f st = (st, []) := by
  unfold setupTrackCapture
  split
  · rfl
  · split
    · rfl
    · split
      · rfl
      · simp [h]

/-- On the success path (options present, track resolvable with a media stream
track, no session yet) `#setupTrackCapture` performs exactly the registration. -/
theorem setupTrackCapture_new (env : Env) (k p : String) (r : CaptureRole)
    (f : AudioCaptureFormat) (st : ManagerState) (o : StoredCaptureOptions)
    (t : ResolvedTrack) (mst : Nat)
    (hopts : st.audioCaptureOptions = some o)
    (ht : env.resolveTrack k = some t)
    (hm : t.mediaStreamTrack = some mst)
    (hnew : mapHas k st.trackCaptureMap = false) :
    coreView (setupTrackCapture env k p r f st).1 = coreView (captureRegister k p r mst st) := by
  unfold setupTrackCapture
  rw [hopts]
  simp only [ht, hm, hnew]
  simp only [Bool.false_eq_true, if_false]
  by_cases hf : f = AudioCaptureFormat.opusWebm
  · simp only [hf, if_true, if_pos]
    exact coreView_encodedCapture env k _
  · simp only [hf, if_false, if_neg, not_false_iff]
    exact coreView_pcmCapture env k _

theorem setupExistingStep_fields (env : Env) (o : StoredCaptureOptions)
    (acc : ManagerState × List AudioEvent) (e : String × TrackStatsData) :
    (setupExistingStep env o acc e).1.audioCaptureOptions = acc.1.audioCaptureOptions
    ∧ (setupExistingStep env o acc e).1.audioCaptureEnabled = acc.1.audioCaptureEnabled
    ∧ (setupExistingStep env o acc e).1.trackStats = acc.1.trackStats := by
  unfold setupExistingStep
  split
  · exact ⟨rfl, rfl, rfl⟩
  · split
    · exact ⟨rfl, rfl, rfl⟩
    · obtain ⟨h1, h2, h3, -, -⟩ :=
        setupTrackCapture_fields env e.1 e.2.participant (roleOf e.2.participant) o.format acc.1
      exact ⟨h1, h2, h3⟩

theorem foldExisting_fields (env : Env) (o : StoredCaptureOptions)
    (entries : List (String × TrackStatsData)) :
    ∀ acc : ManagerState × List AudioEvent,
    (entries.foldl (setupExistingStep env o) acc).1.audioCaptureOptions
        = acc.1.audioCaptureOptions
    ∧ (entries.foldl (setupExistingStep env o) acc).1.audioCaptureEnabled
        = acc.1.audioCaptureEnabled
    ∧ (entries.foldl (setupExistingStep env o) acc).1.trackStats = acc.1.trackStats := by
  induction entries with
  | nil => intro acc; exact ⟨rfl, rfl, rfl⟩
  | cons e rest ih =>
    intro acc
    rw [List.foldl_cons]
    obtain ⟨h1, h2, h3⟩ := ih (setupExistingStep env o acc e)
    obtain ⟨g1, g2, g3⟩ := setupExistingStep_fields env o acc e
    exact ⟨h1.trans g1, h2.trans g2, h3.trans g3⟩

theorem setupExisting_fields (env : Env) (st : ManagerState) :
    (setupExistingTrackCapture env st).1.audioCaptureOptions = st.audioCaptureOptions
    ∧ (setupExistingTrackCapture env st).1.audioCaptureEnabled = st.audioCaptureEnabled
    ∧ (setupExistingTrackCapture env st).1.trackStats = st.trackStats := by
  unfold setupExistingTrackCapture
  split
  · exact ⟨rfl, rfl, rfl⟩
  · rename_i o ho
    exact foldExisting_fields env o st.trackStats (st, [])

/-- With the filter fixed to the agent role, the arming loop never creates a
session for a stream id every one of whose registry records names a non-agent
participant. -/
theorem foldExisting_no_session (env : Env) (o : StoredCaptureOptions) (trackId : String)
    (hsrc : o.source = CaptureSource.agent)
    (entries : List (String × TrackStatsData)) :
    ∀ acc : ManagerState × List AudioEvent,
    (∀ p ∈ entries, p.1 = trackId → identityIsAgent p.2.participant = false) →
    mapHas trackId acc.1.trackCaptureMap = false →
    mapHas trackId ((entries.foldl (setupExistingStep env o) acc).1).trackCaptureMap
      = false := by
  induction entries with
  | nil => intro acc _ hacc; simpa using hacc
  | cons e rest ih =>
    intro acc hall hacc
    rw [List.foldl_cons]
    refine ih (setupExistingStep env o acc e)
      (fun p hp hpk => hall p (List.mem_cons_of_mem e hp) hpk) ?_
    unfold setupExistingStep
    split
    · exact hacc
    · split
      · exact hacc
      · rename_i h1 h2
        have hne : e.1 ≠ trackId := by
          intro heq
          have hzn := hall e (List.mem_cons_self e rest) heq
          have hrole : roleOf e.2.participant = CaptureRole.user := by
            simp [roleOf, hzn]
          exact h1 (by rw [hsrc, hrole]; exact ⟨by decide, by decide⟩)
        rcases setupTrackCapture_coreCases env e.1 e.2.participant (roleOf e.2.participant)
            o.format acc.1 with h | ⟨mst, h⟩ <;> rw [coreView_eq_iff] at h
        · show mapHas trackId (setupTrackCapture env e.1 e.2.participant
            (roleOf e.2.participant) o.format acc.1).1.trackCaptureMap = false
          rw [h.1]
          exact hacc
        · show mapHas trackId (setupTrackCapture env e.1 e.2.participant
            (roleOf e.2.participant) o.format acc.1).1.trackCaptureMap = false
          rw [h.1]
          show mapHas trackId (mapSet e.1 _ acc.1.trackCaptureMap) = false
          rw [mapHas_mapSet_ne trackId e.1 _ acc.1.trackCaptureMap (Ne.symm hne)]
          exact hacc

theorem clampSample_mem (q : ℚ) : -1 ≤ clampSample q ∧ clampSample q ≤ 1 := by
  unfold clampSample
  exact ⟨le_max_left _ _, max_le (by norm_num) (min_le_left _ _)⟩

theorem truncQ_bounds (q : ℚ) (h1 : -32767 ≤ q) (h2 : q ≤ 32767) :
    -32767 ≤ truncQ q ∧ truncQ q ≤ 32767 := by
  unfold truncQ
  split
  · rename_i h0
    refine ⟨?_, ?_⟩
    · have hz : (0 : ℤ) ≤ ⌊q⌋ := Int.floor_nonneg.mpr h0
      omega
    · exact_mod_cast le_trans (Int.floor_le q) h2
  · rename_i h0
    push_neg at h0
    refine ⟨?_, ?_⟩
    · exact_mod_cast le_trans h1 (Int.le_ceil q)
    · have hz : ⌈q⌉ ≤ 0 := by
        rw [Int.ceil_le, Int.cast_zero]
        exact le_of_lt h0
      omega

theorem toInt16_eq_self (z : ℤ) (h1 : -32768 ≤ z) (h2 : z ≤ 32767) : toInt16 z = z := by
  unfold toInt16
  split <;> omega

/-- C2 (amended): `#float32ToInt16` converts each sample by truncation toward
zero (ECMAScript `ToInt16`) of `clamp(s, -1, 1) * 32767` — the wrap step of
`ToInt16` never fires because the clamped product stays inside the Int16
range — and the endpoint samples `1.0`, `-1.0` and `2.0` map to `32767`,
`-32767` and `32767` as the claim's examples state. -/
theorem float_to_int16_C2 (buffer : List ℚ) :
    float32ToInt16 buffer = buffer.map (fun s => truncQ (clampSample s * 32767))
    ∧ float32ToInt16 [1] = [32767]
    ∧ float32ToInt16 [-1] = [-32767]
    ∧ float32ToInt16 [2] = [32767] := by
  have hc : (⌈(-32767 : ℚ)⌉ : ℤ) = -32767 := by
    rw [show ((-32767 : ℚ)) = ((-32767 : ℤ) : ℚ) by norm_num, Int.ceil_intCast]
  refine ⟨?_, ?_, ?_, ?_⟩
  · unfold float32ToInt16
    apply List.map_congr_left
    intro s _
    obtain ⟨hc1, hc2⟩ := clampSample_mem s
    have hb1 : -32767 ≤ clampSample s * 32767 := by nlinarith
    have hb2 : clampSample s * 32767 ≤ 32767 := by nlinarith
    obtain ⟨ht1, ht2⟩ := truncQ_bounds _ hb1 hb2
    exact toInt16_eq_self _ (by omega) ht2
  · norm_num [float32ToInt16, toInt16, truncQ, clampSample, min_def, max_def]
  · norm_num [float32ToInt16, toInt16, truncQ, clampSample, min_def, max_def, hc]
  · norm_num [float32ToInt16, toInt16, truncQ, clampSample, min_def, max_def]

/-- C2 counterexample: at the sample `0.5` (exactly representable as a
`Float32`), the code truncates `16383.5` to `16383` while the claimed formula
`round(clamp(s, -1, 1) * 32767)` gives `16384` — so the claim's equation with
`round` is false. -/
theorem float_to_int16_C2_counterexample :
    float32ToInt16 [(1 : ℚ)/2] = [16383]
    ∧ float32ToInt16Rounded [(1 : ℚ)/2] = [16384]
    ∧ ([16383] : List ℤ) ≠ [16384] := by
  refine ⟨?_, ?_, by decide⟩
  · norm_num [float32ToInt16, toInt16, truncQ, clampSample, min_def, max_def]
  · norm_num [float32ToInt16Rounded, clampSample, min_def, max_def, round_eq]

/-- C5: the activity detector starts in the not-speaking state; a `play` event
while not speaking emits exactly one `speaking` and raises the flag; a `play`
while already speaking emits nothing; `pause` and `ended` emit `listening`
unconditionally (from either flag value) and reset the flag, so a `play` after
either of them again emits exactly one `speaking`. -/
theorem activity_detection_C5 :
    monitorInit = false
    ∧ monitorStep false .play = (true, [AudioEvent.speaking])
    ∧ monitorStep true .play = (true, [])
    ∧ (∀ b, monitorStep b .pause = (false, [AudioEvent.listening]))
    ∧ (∀ b, monitorStep b .ended = (false, [AudioEvent.listening]))
    ∧ (∀ b, monitorStep (monitorStep b .pause).1 .play = (true, [AudioEvent.speaking]))
    ∧ (∀ b, monitorStep (monitorStep b .ended).1 .play = (true, [AudioEvent.speaking])) :=
  ⟨rfl, rfl, rfl, fun _ => rfl, fun _ => rfl, fun _ => rfl, fun _ => rfl⟩

/-- C6: `cleanup()` empties every internal collection (audio elements, track
stats, recorders, processors, source nodes, cloned tracks, capture map), clears
the shared audio-context reference, and is idempotent — a second call (in
particular a call on an already-empty manager) leaves the state identical.  In
the JS body every teardown step is independently try/catch-guarded, so no call
throws. -/
theorem cleanup_idempotent_C6 (st : ManagerState) :
    (cleanup st).audioElements = []
    ∧ (cleanup st).trackStats = []
    ∧ (cleanup st).recorders = []
    ∧ (cleanup st).processors = []
    ∧ (cleanup st).sourceNodes = []
    ∧ (cleanup st).clonedTracks = []
    ∧ (cleanup st).trackCaptureMap = []
    ∧ (cleanup st).audioContext = false
    ∧ cleanup (cleanup st) = cleanup st :=
  ⟨rfl, rfl, rfl, rfl, rfl, rfl, rfl, rfl, rfl⟩

/-- A concrete platform environment used by the witnesses. -/
def sampleEnv : Env :=
  { resolveTrack := fun _ => some { mediaStreamTrack := some 5, source := .microphone }
    attachElement := fun _ => some 1
    detachElements := fun _ => [1]
    inputBins := [255, 0, 255] }

/-- Concrete stored capture options used by the witnesses. -/
def sampleOpts : StoredCaptureOptions :=
  { source := .agent
    trackSourceFilter := "microphone"
    format := .opusWebm
    chunkSize := 100
    bufferSize := 2048
    callback := 7 }

/-- A concrete armed manager state used by the witnesses. -/
def sampleState : ManagerState :=
  { audioCaptureEnabled := true, audioCaptureOptions := some sampleOpts }

/-- C1: with capture armed, running per-stream capture setup twice for the same
stream id (as happens when `enableAudioCapture` arms an existing stream and a
later subscription event re-triggers setup) yields exactly one capture-session
entry and exactly one cloned stream for that id; the second run hits the
existence check and returns the state unchanged with nothing emitted — no
recorder, processing node, or clone is created. -/
theorem capture_dedupe_C1 (env : Env) (trackId participant : String) (role : CaptureRole)
    (fmt : AudioCaptureFormat) (st : ManagerState) (o : StoredCaptureOptions)
    (t : ResolvedTrack) (mst : Nat)
    (hopts : st.audioCaptureOptions = some o)
    (ht : env.resolveTrack trackId = some t)
    (hm : t.mediaStreamTrack = some mst)
    (hnew : mapHas trackId st.trackCaptureMap = false)
    (hclone : mapHas trackId st.clonedTracks = false) :
    countKey trackId
        (setupTrackCapture env trackId participant role fmt st).1.trackCaptureMap = 1
    ∧ countKey trackId
        (setupTrackCapture env trackId participant role fmt st).1.clonedTracks = 1
    ∧ setupTrackCapture env trackId participant role fmt
        (setupTrackCapture env trackId participant role fmt st).1
      = ((setupTrackCapture env trackId participant role fmt st).1, []) := by
  have h := setupTrackCapture_new env trackId participant role fmt st o t mst hopts ht hm hnew
  rw [coreView_eq_iff] at h
  obtain ⟨hmap, hcl, -, -, -, -, -⟩ := h
  have hmap' : (setupTrackCapture env trackId participant role fmt st).1.trackCaptureMap
      = mapSet trackId ⟨participant, role⟩ st.trackCaptureMap := hmap
  have hcl' : (setupTrackCapture env trackId participant role fmt st).1.clonedTracks
      = mapSet trackId mst st.clonedTracks := hcl
  refine ⟨?_, ?_, ?_⟩
  · rw [hmap']
    exact countKey_mapSet_new trackId _ _ hnew
  · rw [hcl']
    exact countKey_mapSet_new trackId _ _ hclone
  · apply setupTrackCapture_skip
    rw [hmap']
    exact mapHas_mapSet_self trackId _ _

/-- Witness for C1 at a concrete environment, stream id and armed state. -/
theorem capture_dedupe_C1_witness :
    countKey "t1" (setupTrackCapture sampleEnv "t1" "voice-agent" .agent .opusWebm
        sampleState).1.trackCaptureMap = 1
    ∧ countKey "t1" (setupTrackCapture sampleEnv "t1" "voice-agent" .agent .opusWebm
        sampleState).1.clonedTracks = 1
    ∧ setupTrackCapture sampleEnv "t1" "voice-agent" .agent .opusWebm
        (setupTrackCapture sampleEnv "t1" "voice-agent" .agent .opusWebm sampleState).1
      = ((setupTrackCapture sampleEnv "t1" "voice-agent" .agent .opusWebm sampleState).1,
         []) :=
  capture_dedupe_C1 sampleEnv "t1" "voice-agent" .agent .opusWebm sampleState sampleOpts
    { mediaStreamTrack := some 5, source := .microphone } 5 rfl rfl rfl rfl rfl

/-- C3: `enableAudioCapture` throws synchronously exactly when the options
carry no delivery callback under either accepted key (`callback` or `onData`);
on the throwing path the state is returned untouched — capture stays as it
was, no options are stored, no per-stream setup runs — and no event, in
particular no `error` event, is emitted. -/
theorem enable_capture_contract_C3 (env : Env) (options : AudioCaptureOptions)
    (st : ManagerState) :
    ((enableAudioCapture env options st).1
        = .error "Audio capture requires either callback or onData option"
      ↔ (options.callback = none ∧ options.onData = none))
    ∧ (options.callback = none → options.onData = none →
        enableAudioCapture env options st
          = (.error "Audio capture requires either callback or onData option", st, [])) := by
  unfold enableAudioCapture jsOrOption
  cases hc : options.callback <;> cases ho : options.onData <;> simp

/-- Witness for C3: with no callback under either key the call throws and the
state and event list are untouched. -/
theorem enable_capture_contract_C3_witness :
    enableAudioCapture sampleEnv {} sampleState
      = (.error "Audio capture requires either callback or onData option", sampleState, []) :=
  (enable_capture_contract_C3 sampleEnv {} sampleState).2 rfl rfl

/-- C4: `setVolume` stores `clamp(v, 0, 1)` for finite `v` and `0` for
non-finite `v`; immediately after the call every live audio element's volume
equals the stored value, and the call emits exactly one `volumeChanged` event
carrying the stored value.  The JS body runs entirely inside `try/catch` whose
catch arm emits an `error` event, so the method never throws; in this pure
model no step can fail, so that arm is unreachable. -/
theorem set_volume_C4 (st : ManagerState) (v : JsNumber) :
    (∀ q : ℚ, v = .finite q → (setVolume st v).1.volume = min 1 (max 0 q))
    ∧ (v.isFinite = false → (setVolume st v).1.volume = 0)
    ∧ (∀ e ∈ (setVolume st v).1.audioElements, e.volume = (setVolume st v).1.volume)
    ∧ (setVolume st v).2 = [AudioEvent.volumeChanged (setVolume st v).1.volume] := by
  refine ⟨?_, ?_, ?_, ?_⟩
  · rintro q rfl
    rfl
  · cases v <;> simp [JsNumber.isFinite, setVolume, normalizeVolume]
  · intro e he
    simp only [setVolume, List.mem_map] at he
    obtain ⟨a, -, rfl⟩ := he
    rfl
  · rfl

/-- Witness for C4 at the finite input `2` (clamped to `1`) and at `NaN`
(collapsed to `0`). -/
theorem set_volume_C4_witness :
    (setVolume sampleState (.finite 2)).1.volume = min 1 (max 0 2)
    ∧ (setVolume sampleState .nan).1.volume = 0 :=
  ⟨(set_volume_C4 sampleState (.finite 2)).1 2 rfl,
   (set_volume_C4 sampleState .nan).2.1 rfl⟩

/-- C7: when capture is armed with `source = 'agent'`, a subscription whose
participant identity does not contain `"agent"` (case-insensitively) is
rejected by the role filter before any setup — state unchanged, nothing
emitted — and the batch arming pass over already-registered tracks never
creates a capture session for a stream id all of whose registry records name a
non-agent participant. -/
theorem capture_filter_C7 (env : Env) (st : ManagerState) (o : StoredCaptureOptions)
    (t : TrackArg) (identity : Option String) (trackId : String)
    (hopts : st.audioCaptureOptions = some o)
    (hsrc : o.source = CaptureSource.agent)
    (hid : identityIsAgent (jsOrString identity "") = false)
    (hall : ∀ p ∈ st.trackStats, p.1 = trackId → identityIsAgent p.2.participant = false)
    (hnot : mapHas trackId st.trackCaptureMap = false) :
    setupAudioCaptureIfEnabled env t identity st = (st, [])
    ∧ mapHas trackId (setupExistingTrackCapture env st).1.trackCaptureMap = false := by
  constructor
  · unfold setupAudioCaptureIfEnabled
    split
    · rfl
    · have hrole : roleOf (jsOrString identity "") = CaptureRole.user := by
        simp [roleOf, hid]
      simp only [hopts]
      simp [hrole, hsrc, roleToSource]
  · unfold setupExistingTrackCapture
    simp only [hopts]
    exact foldExisting_no_session env o trackId hsrc st.trackStats (st, []) hall hnot

/-- A user-owned registry record used by the C7 witness. -/
def c7Data : TrackStatsData :=
  { trackId := "t1"
    kind := "audio"
    participant := "user-9"
    subscriptionTime := 0
    source := "microphone"
    muted := false
    enabled := true }

/-- A subscription track argument used by the C7 witness. -/
def c7Track : TrackArg :=
  { sid := some "t1", mediaStreamTrackId := none, kind := "audio", source := .microphone }

/-- An armed agent-only manager state holding one user-owned registry record. -/
def c7State : ManagerState :=
  { audioCaptureEnabled := true
    audioCaptureOptions := some sampleOpts
    trackStats := [("t1", c7Data)] }

/-- Witness for C7: a user subscription is a no-op and batch arming creates no
session for the user-owned stream. -/
theorem capture_filter_C7_witness :
    setupAudioCaptureIfEnabled sampleEnv c7Track (some "user-9") c7State = (c7State, [])
    ∧ mapHas "t1" (setupExistingTrackCapture sampleEnv c7State).1.trackCaptureMap = false :=
  capture_filter_C7 sampleEnv c7State sampleOpts c7Track (some "user-9") "t1" rfl rfl
    (by decide) (by decide) rfl

/-- The stats record `#recordTrackStats` builds for a subscription. -/
def statsRecordOf (env : Env) (t : TrackArg) (pub : PublicationArg)
    (identity : Option String) : TrackStatsData :=
  { trackId := trackKey t
    kind := t.kind
    participant := jsOrString identity "unknown"
    subscriptionTime := env.now
    source := getTrackSourceString pub.source
    muted := pub.isMuted
    enabled := pub.isEnabled }

theorem setupCaptureIfEnabled_trackStats (env : Env) (t : TrackArg)
    (identity : Option String) (st : ManagerState) :
    (setupAudioCaptureIfEnabled env t identity st).1.trackStats = st.trackStats := by
  unfold setupAudioCaptureIfEnabled
  split
  · rfl
  · split
    · rfl
    · split
      · rfl
      · split
        · rfl
        · exact (setupTrackCapture_fields env (trackKey t) (jsOrString identity "unknown")
            (roleOf (jsOrString identity "")) _ st).2.2.1

theorem setupAudioElement_trackStats (env : Env) (t : TrackArg)
    (identity : Option String) (st : ManagerState) :
    (setupAudioElement env t identity st).1.trackStats = st.trackStats := by
  unfold setupAudioElement
  split
  · rfl
  · exact setupCaptureIfEnabled_trackStats env t identity _

theorem handleTrackSubscribed_trackStats (env : Env) (t : TrackArg) (pub : PublicationArg)
    (identity : Option String) (st : ManagerState) (hk : t.kind = "audio") :
    (handleTrackSubscribed env t pub identity st).1.trackStats
      = mapSet (trackKey t) (statsRecordOf env t pub identity) st.trackStats := by
  unfold handleTrackSubscribed
  rw [if_neg (by simp [hk])]
  rw [setupCaptureIfEnabled_trackStats, setupAudioElement_trackStats]
  rfl

theorem handleTrackUnsubscribed_trackStats (env : Env) (t : TrackArg) (st : ManagerState)
    (hk : t.kind = "audio") :
    (handleTrackUnsubscribed env t st).1.trackStats
      = mapDelete (trackKey t) st.trackStats := by
  unfold handleTrackUnsubscribed
  rw [if_neg (by simp [hk])]
  rfl

/-- C8: subscribing two audio streams with distinct derived ids and then
unsubscribing the first leaves `getTrackStats()` reporting
`activeTracks = 1`, `totalTracks = 1`, and `trackDetails` holding exactly the
second stream's record (the first stream's registry entry is deleted by the
unsubscription). -/
theorem track_stats_C8 (env1 env2 env3 : Env) (t1 t2 : TrackArg)
    (pub1 pub2 : PublicationArg) (id1 id2 : Option String) (st s1 s2 s3 : ManagerState)
    (h0 : st.trackStats = [])
    (hk1 : t1.kind = "audio") (hk2 : t2.kind = "audio")
    (hne : trackKey t1 ≠ trackKey t2)
    (hs1 : s1 = (handleTrackSubscribed env1 t1 pub1 id1 st).1)
    (hs2 : s2 = (handleTrackSubscribed env2 t2 pub2 id2 s1).1)
    (hs3 : s3 = (handleTrackUnsubscribed env3 t1 s2).1) :
    (getTrackStats s3).totalTracks = 1
    ∧ (getTrackStats s3).activeTracks = 1
    ∧ (getTrackStats s3).trackDetails = [(trackKey t2, statsRecordOf env2 t2 pub2 id2)] := by
  have h1 : s1.trackStats = [(trackKey t1, statsRecordOf env1 t1 pub1 id1)] := by
    rw [hs1, handleTrackSubscribed_trackStats env1 t1 pub1 id1 st hk1, h0]
    rfl
  have h2 : s2.trackStats
      = [(trackKey t1, statsRecordOf env1 t1 pub1 id1),
         (trackKey t2, statsRecordOf env2 t2 pub2 id2)] := by
    rw [hs2, handleTrackSubscribed_trackStats env2 t2 pub2 id2 s1 hk2, h1]
    simp [mapSet, hne]
  have h3 : s3.trackStats = [(trackKey t2, statsRecordOf env2 t2 pub2 id2)] := by
    rw [hs3, handleTrackUnsubscribed_trackStats env3 t1 s2 hk1, h2]
    simp [mapDelete, Ne.symm hne]
  exact ⟨by simp [getTrackStats, h3], by simp [getTrackStats, h3],
    by simp [getTrackStats, h3]⟩

/-- First subscription argument of the C8 witness. -/
def s1Track : TrackArg :=
  { sid := some "t1", mediaStreamTrackId := none, kind := "audio", source := .microphone }

/-- Second subscription argument of the C8 witness. -/
def s2Track : TrackArg :=
  { sid := some "t2", mediaStreamTrackId := none, kind := "audio", source := .microphone }

/-- Publication metadata of the C8 witness. -/
def samplePub : PublicationArg :=
  { source := .microphone, isMuted := false, isEnabled := true }

/-- Witness for C8: concrete agent and user subscriptions, then the agent
stream unsubscribes. -/
theorem track_stats_C8_witness :
    (getTrackStats (handleTrackUnsubscribed sampleEnv s1Track
        (handleTrackSubscribed sampleEnv s2Track samplePub (some "user-2")
          (handleTrackSubscribed sampleEnv s1Track samplePub (some "agent-1")
            {}).1).1).1).totalTracks = 1
    ∧ (getTrackStats (handleTrackUnsubscribed sampleEnv s1Track
        (handleTrackSubscribed sampleEnv s2Track samplePub (some "user-2")
          (handleTrackSubscribed sampleEnv s1Track samplePub (some "agent-1")
            {}).1).1).1).activeTracks = 1
    ∧ (getTrackStats (handleTrackUnsubscribed sampleEnv s1Track
        (handleTrackSubscribed sampleEnv s2Track samplePub (some "user-2")
          (handleTrackSubscribed sampleEnv s1Track samplePub (some "agent-1")
            {}).1).1).1).trackDetails
        = [(trackKey s2Track, statsRecordOf sampleEnv s2Track samplePub (some "user-2"))] :=
  track_stats_C8 sampleEnv sampleEnv sampleEnv s1Track s2Track samplePub samplePub
    (some "agent-1") (some "user-2") {} _ _ _ rfl rfl rfl (by decide) rfl rfl rfl

theorem inputAnalyserAfter_spec (env : Env) (st : ManagerState) :
    (inputAnalyserAfter env st).inputAnalyser
      = (st.inputAnalyser
         || ((st.audioContext || env.contextAvailable)
             && (env.micTrackAvailable && env.analyserCreationOk))) := by
  cases hs : st.inputAnalyser <;> cases ha : st.audioContext <;>
    cases hc : env.contextAvailable <;> cases hm : env.micTrackAvailable <;>
    cases hk : env.analyserCreationOk <;>
    simp [inputAnalyserAfter, initializeInputAnalyser, ensureAudioContext, hs, ha, hc, hm, hk]

/-- C9: `getInputVolume` is total (the JS body is one `try/catch`) and returns
a value in `[0, 1]`: it returns `0` when no audio context can be built, when no
eligible microphone source exists, or when the frequency-bin array is empty,
and otherwise returns the clamped average `sum(bins) / (length * 255)`. -/
theorem input_volume_C9 (env : Env) (st : ManagerState) :
    (0 ≤ (getInputVolume env st).1 ∧ (getInputVolume env st).1 ≤ 1)
    ∧ (st.inputAnalyser = false → st.audioContext = false → env.contextAvailable = false →
        (getInputVolume env st).1 = 0)
    ∧ (st.inputAnalyser = false → env.micTrackAvailable = false →
        (getInputVolume env st).1 = 0)
    ∧ (env.inputBins = [] → (getInputVolume env st).1 = 0)
    ∧ ((inputAnalyserAfter env st).inputAnalyser = true → env.inputBins ≠ [] →
        (getInputVolume env st).1
          = max 0 (min 1 (binSum env.inputBins / (env.inputBins.length * 255)))) := by
  refine ⟨?_, ?_, ?_, ?_, ?_⟩
  · unfold getInputVolume
    split
    · norm_num
    · split
      · norm_num
      · exact ⟨le_max_left _ _, max_le (by norm_num) (min_le_left _ _)⟩
  · intro h1 h2 h3
    unfold getInputVolume
    have hx : (inputAnalyserAfter env st).inputAnalyser = false := by
      rw [inputAnalyserAfter_spec]
      simp [h1, h2, h3]
    rw [hx]
    simp
  · intro h1 h2
    unfold getInputVolume
    have hx : (inputAnalyserAfter env st).inputAnalyser = false := by
      rw [inputAnalyserAfter_spec]
      simp [h1, h2]
    rw [hx]
    simp
  · intro hb
    unfold getInputVolume
    split
    · rfl
    · simp [hb]
  · intro hA hb
    unfold getInputVolume
    rw [hA]
    have hlen : ¬(env.inputBins.length = 0) := by
      simpa [List.length_eq_zero] using hb
    simp [hlen]

/-- Witness for C9: an available microphone analyser over the concrete bins
`[255, 0, 255]` yields the clamped average. -/
theorem input_volume_C9_witness :
    (getInputVolume sampleEnv sampleState).1
      = max 0 (min 1 (binSum sampleEnv.inputBins / (sampleEnv.inputBins.length * 255))) :=
  (input_volume_C9 sampleEnv sampleState).2.2.2.2 rfl (by decide)

/-- C10 (amended): `enableAudioCapture` accepts the delivery callback under
either the `callback` or `onData` key; on success the armed flag is raised and
the stored options are the normalized record in which every omitted field is
filled with its fixed default (`source = 'agent'`,
`trackSourceFilter = 'microphone'` — not `'all'` —, `format = 'opus-webm'`,
`chunkSize = 100`, `bufferSize = 2048`) and every given truthy field is kept;
because defaulting is JS `||`, a given falsy value (`0` for the numeric
fields, `""` for the filter) also falls back to the default. -/
theorem option_normalization_C10 (env : Env) (options : AudioCaptureOptions)
    (st : ManagerState) (cb : Nat)
    (hcb : jsOrOption options.callback options.onData = some cb) :
    (enableAudioCapture env options st).1 = .ok ()
    ∧ (enableAudioCapture env options st).2.1.audioCaptureEnabled = true
    ∧ (enableAudioCapture env options st).2.1.audioCaptureOptions
        = some (normalizeCaptureOptions options cb)
    ∧ (normalizeCaptureOptions options cb).callback = cb
    ∧ (options.source = none → (normalizeCaptureOptions options cb).source = .agent)
    ∧ (∀ v, options.source = some v → (normalizeCaptureOptions options cb).source = v)
    ∧ (options.trackSourceFilter = none →
        (normalizeCaptureOptions options cb).trackSourceFilter = "microphone")
    ∧ (∀ f, options.trackSourceFilter = some f → f ≠ "" →
        (normalizeCaptureOptions options cb).trackSourceFilter = f)
    ∧ (options.format = none → (normalizeCaptureOptions options cb).format = .opusWebm)
    ∧ (∀ f, options.format = some f → (normalizeCaptureOptions options cb).format = f)
    ∧ ((options.chunkSize = none ∨ options.chunkSize = some 0) →
        (normalizeCaptureOptions options cb).chunkSize = 100)
    ∧ (∀ n, options.chunkSize = some n → n ≠ 0 →
        (normalizeCaptureOptions options cb).chunkSize = n)
    ∧ ((options.bufferSize = none ∨ options.bufferSize = some 0) →
        (normalizeCaptureOptions options cb).bufferSize = 2048)
    ∧ (∀ n, options.bufferSize = some n → n ≠ 0 →
        (normalizeCaptureOptions options cb).bufferSize = n) := by
  have henable : enableAudioCapture env options st
      = (.ok (), setupExistingTrackCapture env (armCapture options cb st)) := by
    unfold enableAudioCapture
    rw [hcb]
  refine ⟨?_, ?_, ?_, rfl, ?_, ?_, ?_, ?_, ?_, ?_, ?_, ?_, ?_, ?_⟩
  · rw [henable]
  · rw [henable]
    exact (setupExisting_fields env (armCapture options cb st)).2.1
  · rw [henable]
    exact (setupExisting_fields env (armCapture options cb st)).1
  · intro h
    simp [normalizeCaptureOptions, h]
  · intro v h
    simp [normalizeCaptureOptions, h]
  · intro h
    simp [normalizeCaptureOptions, jsOrString, h]
  · intro f h hne
    simp [normalizeCaptureOptions, jsOrString, h, hne]
  · intro h
    simp [normalizeCaptureOptions, h]
  · intro f h
    simp [normalizeCaptureOptions, h]
  · rintro (h | h) <;> simp [normalizeCaptureOptions, jsOrNat, h]
  · intro n h hn
    simp [normalizeCaptureOptions, jsOrNat, h, hn]
  · rintro (h | h) <;> simp [normalizeCaptureOptions, jsOrNat, h]
  · intro n h hn
    simp [normalizeCaptureOptions, jsOrNat, h, hn]

/-- C10 counterexample: with a callback present and `chunkSize: 0` explicitly
given, the stored options hold `chunkSize = 100` — the JS `||` defaulting also
replaces a given falsy value, so "stored equals the given value whenever one is
given" fails at `0` (the claim's reading that only omitted fields are
defaulted). -/
theorem option_normalization_C10_counterexample :
    ((enableAudioCapture sampleEnv { callback := some 7, chunkSize := some 0 }
        {}).2.1.audioCaptureOptions).map StoredCaptureOptions.chunkSize = some 100
    ∧ (0 : Nat) ≠ 100 := by
  exact ⟨rfl, by decide⟩

/-- Option record exercising given values and a falsy `bufferSize` for the C10
witness. -/
def c10Options : AudioCaptureOptions :=
  { callback := some 7
    source := some .both
    trackSourceFilter := some "all"
    format := some .pcmI16
    chunkSize := some 50
    bufferSize := some 0 }

/-- Witness for C10: given truthy fields are kept, a falsy one falls back, the
armed flag rises, and the callback is also accepted under `onData` alone. -/
theorem option_normalization_C10_witness :
    (enableAudioCapture sampleEnv c10Options {}).1 = .ok ()
    ∧ (enableAudioCapture sampleEnv c10Options {}).2.1.audioCaptureEnabled = true
    ∧ (enableAudioCapture sampleEnv c10Options {}).2.1.audioCaptureOptions
        = some (normalizeCaptureOptions c10Options 7)
    ∧ (normalizeCaptureOptions c10Options 7).source = .both
    ∧ (normalizeCaptureOptions c10Options 7).trackSourceFilter = "all"
    ∧ (normalizeCaptureOptions c10Options 7).format = .pcmI16
    ∧ (normalizeCaptureOptions c10Options 7).chunkSize = 50
    ∧ (normalizeCaptureOptions c10Options 7).bufferSize = 2048
    ∧ (enableAudioCapture sampleEnv { onData := some 9 } {}).2.1.audioCaptureOptions
        = some (normalizeCaptureOptions { onData := some 9 } 9) := by
  obtain ⟨ha, hb, hc, -, -, h6, -, h8, -, h10, -, h12, h13, -⟩ :=
    option_normalization_C10 sampleEnv c10Options {} 7 rfl
  obtain ⟨-, -, hd, -⟩ :=
    option_normalization_C10 sampleEnv { onData := some 9 } {} 9 rfl
  exact ⟨ha, hb, hc, h6 .both rfl, h8 "all" rfl (by decide), h10 .pcmI16 rfl,
    h12 50 rfl (by decide), h13 (Or.inr rfl), hd⟩
